import Mathlib

/-!
Verification of the gym-subscription dashboard (`index.py`) against its
specification.  The Python source is shallowly embedded below:

* calendar dates are day numbers (`Int`, days since 1970-01-01); the records
  hold midnight timestamps, so a date is exactly one integer;
* a cell of a pandas text column is either a string or the float NaN that
  `read_csv` substitutes for an empty cell (`PyStr`);
* money amounts (Python floats that round-trip through `to_csv`/`read_csv`
  by full-precision repr) are embedded as `Rat`;
* the stored CSV is a list of typed rows (`CsvRow`): pandas writes midnight
  timestamps as plain `YYYY-MM-DD` dates and parses them back losslessly via
  `parse_dates`, writes ints and floats losslessly, so the textual encoding
  of the date and numeric cells is abstracted away.  For the text cells the
  model keeps `read_csv`'s NA handling (an empty cell or a default NA token
  parses as NaN) but not its column-wide dtype inference (an all-numeric
  text column reloads as numbers); accordingly no theorem below asserts
  that any text cell survives the save/load round trip — positive
  round-trip statements are confined to the date and numeric columns;
* the Streamlit `@st.cache_data` cache on `load_data` together with the file
  at `DATA_PATH` is the `Store` state, threaded explicitly.
-/

namespace Gym

/-- Python's `str.strip()`: drop leading and trailing whitespace. -/
def pyStrip (s : String) : String :=
  ⟨((s.data.dropWhile Char.isWhitespace).reverse.dropWhile Char.isWhitespace).reverse⟩

/-- The three status strings produced by `status_for`
("❌ Expiré", "⏳ Bientôt", "✅ Actif"). -/
inductive Statut where
  | expire
  | bientot
  | actif
deriving DecidableEq, Repr

/-- A value sitting in a pandas text column: a Python string, or the NaN
that `pd.read_csv` produces for an empty cell. -/
inductive PyStr where
  | s (v : String)
  | nan
deriving DecidableEq, Repr

/-- One row of the in-memory DataFrame, one subscription record.  Columns in
the source order: `ID, Nom, Telephone, Abonnement, DureeJours, Montant,
Debut, Expiration, Remarques`.  `debut` and `expiration` are midnight
timestamps, i.e. day numbers. -/
structure SubscriptionRecord where
  id : PyStr
  nom : PyStr
  telephone : PyStr
  abonnement : PyStr
  dureeJours : Int
  montant : Rat
  debut : Int
  expiration : Int
  remarques : PyStr
deriving DecidableEq, Repr

instance : Inhabited SubscriptionRecord :=
  ⟨⟨.nan, .nan, .nan, .nan, 0, 0, 0, 0, .nan⟩⟩

/-- The in-memory DataFrame: the nine record columns, plus the `Statut` and
`JoursRestants` columns when they have been added (`none` = column absent,
accessing it raises `KeyError`). -/
structure DataFrame where
  rows : List SubscriptionRecord
  statut : Option (List Statut) := none
  joursRestants : Option (List Int) := none
deriving DecidableEq, Repr

instance : Inhabited DataFrame := ⟨⟨[], none, none⟩⟩

/-- The function `status_for(exp_date, warn_days)` from the source; `today`
(`date.today()` in the source) is passed explicitly. -/
def status_for (exp_date : Int) (warn_days : Int) (today : Int) : Statut :=
  if exp_date < today then .expire
  else if exp_date ≤ today + warn_days then .bientot
  else .actif

/-- The function `df_with_status(df, warn_days)` from the source: copy the frame, return
the copy unchanged when empty, otherwise add the `Statut` and
`JoursRestants` columns.  `JoursRestants` is
`(df2["Expiration"].dt.date - today).apply(lambda x: x.days)`, the signed
day difference. -/
def df_with_status (df : DataFrame) (warn_days : Int) (today : Int) : DataFrame :=
  let df2 := df
  if df2.rows.isEmpty then df2
  else
    { df2 with
      statut := some (df2.rows.map fun r => status_for r.expiration warn_days today),
      joursRestants := some (df2.rows.map fun r => r.expiration - today) }

/-- One row of the persisted CSV file, with the pandas cell encodings
abstracted to their parsed values: text cells carry their raw string (an
empty string is an empty cell), `DureeJours` an int, `Montant` a float, and
the two date columns the day written as `YYYY-MM-DD` (midnight timestamps
print date-only and `parse_dates` restores them exactly). -/
structure CsvRow where
  id : String
  nom : String
  telephone : String
  abonnement : String
  dureeJours : Int
  montant : Rat
  debut : Int
  expiration : Int
  remarques : String
deriving DecidableEq, Repr

/-- The backing CSV file contents (header implicit, fixed column order). -/
abbrev Csv := List CsvRow

/-- How `df.to_csv` writes a text-column value: a string is written as is,
NaN is written as an empty cell. -/
def PyStr.toCell : PyStr → String
  | .s v => v
  | .nan => ""

/-- The default NA tokens of `pd.read_csv`: a cell holding any of these
strings parses as NaN. -/
def naTokens : List String :=
  ["", "#N/A", "#N/A N/A", "#NA", "-1.#IND", "-1.#QNAN", "-NaN", "-nan",
   "1.#IND", "1.#QNAN", "<NA>", "N/A", "NA", "NULL", "NaN", "None", "n/a",
   "nan", "null"]

/-- How `pd.read_csv` parses one text cell: an empty cell or a default NA
token becomes NaN, other strings are kept.  `read_csv`'s column-wide dtype
inference — a text column all of whose cells look numeric is re-typed as
numbers (e.g. a phone column of digit strings loses leading zeros) — is
not modelled; therefore no theorem in this file claims that a text cell
survives the round trip, only that the date and numeric columns do. -/
def cellToPyStr (c : String) : PyStr :=
  if c ∈ naTokens then .nan else .s c

/-- Serialization of one record by `df.to_csv(path, index=False)`. -/
def to_csv_row (r : SubscriptionRecord) : CsvRow :=
  { id := r.id.toCell
    nom := r.nom.toCell
    telephone := r.telephone.toCell
    abonnement := r.abonnement.toCell
    dureeJours := r.dureeJours
    montant := r.montant
    debut := r.debut
    expiration := r.expiration
    remarques := r.remarques.toCell }

/-- Parsing of one CSV row by
`pd.read_csv(path, parse_dates=["Debut", "Expiration"])`: the date and
numeric columns are recovered exactly, the text cells via `cellToPyStr`
(whose NA handling is faithful but whose identity on other strings
over-approximates `read_csv`, which may re-type all-numeric text columns —
hence no theorem relies on text cells round-tripping). -/
def parse_row (c : CsvRow) : SubscriptionRecord :=
  { id := cellToPyStr c.id
    nom := cellToPyStr c.nom
    telephone := cellToPyStr c.telephone
    abonnement := cellToPyStr c.abonnement
    dureeJours := c.dureeJours
    montant := c.montant
    debut := c.debut
    expiration := c.expiration
    remarques := cellToPyStr c.remarques }

/-- Serialization `df.to_csv(..., index=False)` of a whole frame.  In the app `save_data`
is only ever called on the unannotated frame `df`, so only the nine record
columns are written. -/
def to_csv (rows : List SubscriptionRecord) : Csv :=
  rows.map to_csv_row

/-- Parsing the whole file back. -/
def load_rows (csv : Csv) : List SubscriptionRecord :=
  csv.map parse_row

/-- The process state around the Record Store: the file at `DATA_PATH`
(`none` = `os.path.exists` is false) and the `@st.cache_data` memo of
`load_data`. -/
structure Store where
  file : Option Csv
  cache : Option DataFrame
deriving DecidableEq, Repr

/-- The function `load_data(path)` with its `@st.cache_data` decorator: return the cached
frame if one is memoized; otherwise read and parse the file when it exists,
or build the empty frame with the nine named columns, and memoize the
result. -/
def load_data (s : Store) : DataFrame × Store :=
  match s.cache with
  | some df => (df, s)
  | none =>
      let df : DataFrame :=
        match s.file with
        | some csv => { rows := load_rows csv }
        | none => { rows := [] }
      (df, { s with cache := some df })

/-- The function `save_data(df, path)`: rewrite the whole file with `df.to_csv` and clear
the `st.cache_data` cache. -/
def save_data (df : DataFrame) (s : Store) : Store :=
  { file := some (to_csv df.rows), cache := none }

/-- The record built by the `Enregistrer` handler.  `gen_id()` (a fresh
`uuid.uuid4()` string) is passed in as `idv`;
`Expiration = pd.to_datetime(debut) + timedelta(days=int(duree))`. -/
def new_row (idv nom tel abo : String) (duree : Int) (montant : Rat)
    (debut : Int) (rem : String) : SubscriptionRecord :=
  { id := .s idv
    nom := .s (pyStrip nom)
    telephone := .s (pyStrip tel)
    abonnement := .s abo
    dureeJours := duree
    montant := montant
    debut := debut
    expiration := debut + duree
    remarques := .s (pyStrip rem) }

/-- The `Enregistrer` button handler: if `nom.strip()` is falsy (blank name)
show the inline error and change nothing; otherwise concat the new row onto
the frame and `save_data` it.  Returns the new frame, the new store state,
and the sidebar error message if any. -/
def enregistrer (s : Store) (df : DataFrame) (idv nom tel abo : String)
    (duree : Int) (montant : Rat) (debut : Int) (rem : String) :
    DataFrame × Store × Option String :=
  if pyStrip nom = "" then
    (df, s, some "⚠️ Le nom est obligatoire")
  else
    let df' : DataFrame := { df with rows := df.rows ++ [new_row idv nom tel abo duree montant debut rem] }
    (df', save_data df' s, none)

/-- The status metrics of the stats section: each counts the rows of the
`Statut` column equal to one fixed status string.  Accessing
`df_status["Statut"]` when the column is absent raises `KeyError`. -/
def statusCounts (df : DataFrame) : Except String (Nat × Nat × Nat) :=
  match df.statut with
  | none => .error "KeyError: Statut"
  | some col =>
      .ok ((col.filter (fun x => x = .actif)).length,
           (col.filter (fun x => x = .bientot)).length,
           (col.filter (fun x => x = .expire)).length)

/-- Day number of a proleptic-Gregorian calendar date (days since
1970-01-01), the usual civil-calendar conversion. -/
def days_from_civil (y m d : Int) : Int :=
  let y' : Int := if m ≤ 2 then y - 1 else y
  let era : Int := (if 0 ≤ y' then y' else y' - 399) / 400
  let yoe : Int := y' - era * 400
  let mp : Int := if 2 < m then m - 3 else m + 9
  let doy : Int := (153 * mp + 2) / 5 + d - 1
  let doe : Int := yoe * 365 + yoe / 4 - yoe / 100 + doy
  era * 146097 + doe - 719468

/-- Inverse conversion: day number to `(year, month, day)`. -/
def civil_from_days (z : Int) : Int × Int × Int :=
  let z' : Int := z + 719468
  let era : Int := (if 0 ≤ z' then z' else z' - 146096) / 146097
  let doe : Int := z' - era * 146097
  let yoe : Int := (doe - doe / 1460 + doe / 36524 - doe / 146096) / 365
  let y : Int := yoe + era * 400
  let doy : Int := doe - (365 * yoe + yoe / 4 - yoe / 100)
  let mp : Int := (5 * doy + 2) / 153
  let d : Int := doy - (153 * mp + 2) / 5 + 1
  let m : Int := if mp < 10 then mp + 3 else mp - 9
  (if m ≤ 2 then y + 1 else y, m, d)

/-- The truncation `ts.to_period("M").to_timestamp()`: truncate a date to the first of its
calendar month. -/
def monthStart (z : Int) : Int :=
  let c := civil_from_days z
  days_from_civil c.1 c.2.1 1

/-- Total `Montant` of the rows whose `Debut` falls in the month starting
at `k`. -/
def sumMontant (rows : List SubscriptionRecord) (k : Int) : Rat :=
  ((rows.filter fun r => monthStart r.debut = k).map fun r => r.montant).sum

/-- The revenue-by-month chart data:
`df_status["Mois"] = df_status["Debut"].dt.to_period("M").dt.to_timestamp()`
then `df_status.groupby("Mois")["Montant"].sum().reset_index()`.  A pandas
`groupby` with the default `sort=True` emits one row per distinct key, keys
sorted ascending, each carrying the group's sum. -/
def revenueByMonth (rows : List SubscriptionRecord) : List (Int × Rat) :=
  let keys := ((rows.map fun r => monthStart r.debut).dedup).mergeSort fun a b => a ≤ b
  keys.map fun k => (k, sumMontant rows k)

/-- Outcome of one file write: success, or an I/O failure (disk full,
permissions) hit after `n` rows have reached the disk. -/
inductive WriteOutcome where
  | ok
  | failAfter (n : Nat)
deriving DecidableEq, Repr

/-- The write performed by `save_data`'s `df.to_csv(path, index=False)`:
the target file itself is opened in write mode — truncating whatever was
committed there — and the serialization is streamed into it, so a failure
after `n` rows leaves the file holding only that prefix of the new data.
Returns the file contents after the write attempt. -/
def to_csv_write (rows : List SubscriptionRecord) (outcome : WriteOutcome)
    (file : Option Csv) : Option Csv :=
  match outcome with
  | .ok => some (to_csv rows)
  | .failAfter n => some ((to_csv rows).take n)

/-- Modelled from the spec: the atomic write-to-temp-then-replace rewrite
that `StorageWriteError` handling calls for (`save_data` in the source does
not do this).  The serialization goes to a temporary file and the target is
replaced only on success, so a failed write leaves the prior contents
untouched. -/
def save_atomic_write (rows : List SubscriptionRecord) (outcome : WriteOutcome)
    (file : Option Csv) : Option Csv :=
  match outcome with
  | .ok => some (to_csv rows)
  | .failAfter _ => file

/-- The date and numeric payload of a record: the `Debut`, `Expiration`,
`DureeJours` and `Montant` columns, the ones whose CSV encoding
(`YYYY-MM-DD` dates under `parse_dates`, ints, full-precision floats) is
lossless. -/
def numDateProj (r : SubscriptionRecord) : Int × Int × Int × Rat :=
  (r.debut, r.expiration, r.dureeJours, r.montant)

/-- The heap of live DataFrame objects in the Python process, for the frame
effect of `df_with_status`: `df2 = df.copy()` allocates a fresh frame at the
end of the heap and the two column assignments mutate only that copy.
Returns the heap after the call and the index of the result frame. -/
def df_with_status_heap (h : List DataFrame) (i : Nat) (warn_days today : Int) :
    List DataFrame × Nat :=
  (h ++ [df_with_status (h.getD i default) warn_days today], h.length)

/-! ### Helper lemmas shared between claims -/

/-- `df_with_status` never changes the nine record columns. -/
theorem df_with_status_rows (df : DataFrame) (w t : Int) :
    (df_with_status df w t).rows = df.rows := by
  by_cases h : df.rows.isEmpty <;> simp [df_with_status, h]

/-- The date and numeric columns of a whole frame survive the CSV round
trip exactly (text columns are deliberately not covered, cf.
`cellToPyStr`). -/
theorem load_to_csv_numDate (rows : List SubscriptionRecord) :
    (load_rows (to_csv rows)).map numDateProj = rows.map numDateProj := by
  induction rows with
  | nil => rfl
  | cons r rs ih =>
      show numDateProj (parse_row (to_csv_row r)) :: (load_rows (to_csv rs)).map numDateProj
        = numDateProj r :: rs.map numDateProj
      rw [show numDateProj (parse_row (to_csv_row r)) = numDateProj r from rfl, ih]

/-! ### The claims -/

/-- C1: for every `expirationDate`, `warnDays` and `today`, `status_for`
returns `Expired` exactly when `expirationDate < today`, `ExpiringSoon`
exactly when `today ≤ expirationDate ≤ today + warnDays`, and `Active`
exactly when `today + warnDays < expirationDate`; in particular when
`expirationDate = today` the result is `ExpiringSoon`, not `Expired`.
(`warnDays` is nonnegative; the app's slider keeps it in `[1, 30]`.) -/
theorem status_for_spec (e w t : Int) (hw : 0 ≤ w) :
    (status_for e w t = .expire ↔ e < t)
    ∧ (status_for e w t = .bientot ↔ t ≤ e ∧ e ≤ t + w)
    ∧ (status_for e w t = .actif ↔ t + w < e)
    ∧ status_for t w t = .bientot := by
  unfold status_for
  split_ifs <;> simp_all <;> omega

theorem status_for_spec_witness : status_for 19753 7 19753 = .bientot :=
  (status_for_spec 19753 7 19753 (by decide)).2.2.2

/-- C3 (code evaluated at the failing input): on an empty store — no backing
file, hence a frame with zero rows — `df_with_status` returns early without
adding the `Statut` column, so the status metrics' unguarded access
`df_status["Statut"]` raises `KeyError` instead of returning all-zero
counts. -/
theorem statusCounts_empty_store_keyError :
    statusCounts (df_with_status (load_data ⟨none, none⟩).1 7 19753)
      = .error "KeyError: Statut" := rfl

/-- C4: every record built by the creation handler satisfies
`Expiration = Debut + DureeJours`, and a save/load cycle preserves the
stored `Expiration` field verbatim — it is parsed from the file, never
recomputed from `Debut` and `DureeJours`. -/
theorem expiration_invariant :
    (∀ (idv nom tel abo : String) (duree : Int) (montant : Rat)
        (debut : Int) (rem : String),
        (new_row idv nom tel abo duree montant debut rem).expiration
          = debut + duree)
    ∧ ∀ r : SubscriptionRecord, (parse_row (to_csv_row r)).expiration = r.expiration := by
  exact ⟨fun _ _ _ _ _ _ _ _ => rfl, fun _ => rfl⟩

/-- The `JoursRestants` value of row `i` of the annotated frame
(`none` when the column is absent or the index is out of range). -/
def joursRestantsAt (df : DataFrame) (w t : Int) (i : Nat) : Option Int :=
  (df_with_status df w t).joursRestants.bind fun l => l.get? i

/-- C2: `df_with_status` leaves the record columns alone; on an empty input
frame it returns the frame unchanged (empty output, no error); on a
nonempty frame every row `i` gets
`JoursRestants = Expiration - today` (the signed day difference), which is
negative as soon as the row is expired and drops by exactly 1 when `today`
advances by one day. -/
theorem df_with_status_days (df : DataFrame) (w t : Int) :
    (df_with_status df w t).rows = df.rows
    ∧ (df.rows = [] → df_with_status df w t = df)
    ∧ ∀ i, ∀ h : i < df.rows.length,
        joursRestantsAt df w t i = some ((df.rows.get ⟨i, h⟩).expiration - t)
        ∧ ((df.rows.get ⟨i, h⟩).expiration < t →
            ∃ v, joursRestantsAt df w t i = some v ∧ v < 0)
        ∧ ∃ v, joursRestantsAt df w t i = some v
            ∧ joursRestantsAt df w (t + 1) i = some (v - 1) := by
  refine ⟨df_with_status_rows df w t, fun h => ?_, fun i h => ?_⟩
  · simp [df_with_status, h]
  · have hne : df.rows.isEmpty = false := by
      cases hr : df.rows with
      | nil => rw [hr] at h; exact absurd h (by simp)
      | cons a l => rfl
    have hjr : ∀ t' : Int, joursRestantsAt df w t' i
        = some ((df.rows.get ⟨i, h⟩).expiration - t') := by
      intro t'
      simp only [joursRestantsAt, df_with_status, hne, Bool.false_eq_true,
        if_false, Option.bind_eq_bind, Option.some_bind]
      rw [List.get?_map, List.get?_eq_get h, Option.map_some']
    refine ⟨hjr t, fun hexp => ⟨_, hjr t, by omega⟩, ?_⟩
    exact ⟨_, hjr t, by rw [hjr (t + 1)]; congr 1; omega⟩

/-- A concrete one-row frame for witnesses: the spec's scenario record,
`Debut = 2024-01-01`, `DureeJours = 30`, `Expiration = 2024-01-31`. -/
def sampleRec : SubscriptionRecord :=
  { id := .s "a3f1"
    nom := .s "Karim"
    telephone := .nan
    abonnement := .s "Mensuel (30j)"
    dureeJours := 30
    montant := 1500
    debut := 19723
    expiration := 19753
    remarques := .nan }

theorem df_with_status_days_witness :
    joursRestantsAt ⟨[sampleRec], none, none⟩ 7 19754 0 = some (-1) :=
  (((df_with_status_days ⟨[sampleRec], none, none⟩ 7 19754).2.2 0
    (by decide)).1).trans (by decide)

/-- C5: a creation attempt whose name is blank (empty or whitespace-only,
i.e. `nom.strip()` is falsy) only shows the inline error: the frame, the
backing file and the cache are untouched, the record count is unchanged,
and nothing is persisted. -/
theorem blank_name_rejected (s : Store) (df : DataFrame)
    (idv nom tel abo : String) (duree : Int) (montant : Rat) (debut : Int)
    (rem : String) (h : pyStrip nom = "") :
    enregistrer s df idv nom tel abo duree montant debut rem
      = (df, s, some "⚠️ Le nom est obligatoire")
    ∧ (enregistrer s df idv nom tel abo duree montant debut rem).1.rows.length
        = df.rows.length
    ∧ (enregistrer s df idv nom tel abo duree montant debut rem).2.1.file = s.file := by
  simp [enregistrer, h]

theorem blank_name_rejected_witness :
    enregistrer ⟨some (to_csv [sampleRec]), none⟩ ⟨[sampleRec], none, none⟩
        "u1" "   " "" "Mensuel (30j)" 30 1000 19723 ""
      = (⟨[sampleRec], none, none⟩, ⟨some (to_csv [sampleRec]), none⟩,
          some "⚠️ Le nom est obligatoire") :=
  (blank_name_rejected ⟨some (to_csv [sampleRec]), none⟩ ⟨[sampleRec], none, none⟩
    "u1" "   " "" "Mensuel (30j)" 30 1000 19723 "" (by decide)).1

/-- A record with an empty-string text field (the `Telephone` sidebar
default is `""`), for the round-trip counterexample. -/
def emptyTelRec : SubscriptionRecord :=
  { id := .s "b2c4"
    nom := .s "Nadia"
    telephone := .s ""
    abonnement := .s "Annuel (365j)"
    dureeJours := 365
    montant := 9000
    debut := 19723
    expiration := 20088
    remarques := .s "" }

/-- C6, counterexample to the unconditional round trip: a record whose
`Telephone` (and `Remarques`) hold the empty string — the sidebar defaults —
does not survive `load(store(·))`: `to_csv` writes the empty string as an
empty cell and `read_csv` parses an empty cell as NaN. -/
theorem csv_roundtrip_counterexample :
    load_rows (to_csv [emptyTelRec]) ≠ [emptyTelRec] := by decide

/-- C6 as amended: `load(store(records))` preserves the `Debut` and
`Expiration` columns as exact calendar dates — no precision loss, no
time-of-day drift — and the `DureeJours` and `Montant` columns exactly, on
every collection and every record, counts included.  The text columns
carry no such guarantee: `read_csv` turns an empty cell or a default NA
token into NaN (the counterexample) and may re-type an all-numeric text
column, so the round trip is not the identity on the text fields. -/
theorem csv_roundtrip_dates_amounts (rows : List SubscriptionRecord) :
    (load_rows (to_csv rows)).map numDateProj = rows.map numDateProj
    ∧ (load_rows (to_csv rows)).length = rows.length
    ∧ ∀ r : SubscriptionRecord,
        (parse_row (to_csv_row r)).debut = r.debut
        ∧ (parse_row (to_csv_row r)).expiration = r.expiration
        ∧ (parse_row (to_csv_row r)).dureeJours = r.dureeJours
        ∧ (parse_row (to_csv_row r)).montant = r.montant := by
  refine ⟨load_to_csv_numDate rows, ?_, fun _ => ⟨rfl, rfl, rfl, rfl⟩⟩
  simpa using congrArg List.length (load_to_csv_numDate rows)

/-- The month keys of the revenue table are the deduplicated, sorted month
starts of the rows' `Debut` dates. -/
theorem revenueByMonth_keys (rows : List SubscriptionRecord) :
    (revenueByMonth rows).map Prod.fst
      = ((rows.map fun r => monthStart r.debut).dedup).mergeSort fun a b => a ≤ b := by
  simp [revenueByMonth, Function.comp_def]

/-- Two records with `Debut` on 2024-01-05 and 2024-01-20 and `Montant`
1000 and 1500, for the same-month revenue scenario. -/
def recJan5 : SubscriptionRecord :=
  { sampleRec with id := .s "r1", montant := 1000, debut := 19727, expiration := 19757 }

def recJan20 : SubscriptionRecord :=
  { sampleRec with id := .s "r2", montant := 1500, debut := 19742, expiration := 19772 }

/-- C7: the revenue-by-month table has strictly increasing (hence
chronologically ordered, duplicate-free) month keys; every entry's total is
the sum of `Montant` over the rows whose `Debut` month-start is that key;
the keys are exactly the month starts occurring among the rows; and the
concrete scenario — two records in January 2024 with amounts 1000 and
1500 — yields the single entry `(2024-01-01, 2500)`. -/
theorem revenueByMonth_spec :
    (∀ rows : List SubscriptionRecord,
        ((revenueByMonth rows).map Prod.fst).Pairwise (· < ·))
    ∧ (∀ rows : List SubscriptionRecord, ∀ p ∈ revenueByMonth rows,
        p.2 = sumMontant rows p.1 ∧ ∃ r ∈ rows, monthStart r.debut = p.1)
    ∧ (∀ rows : List SubscriptionRecord, ∀ r ∈ rows,
        monthStart r.debut ∈ (revenueByMonth rows).map Prod.fst)
    ∧ revenueByMonth [recJan5, recJan20] = [(days_from_civil 2024 1 1, 2500)] := by
  have htrans : ∀ a b c : Int,
      decide (a ≤ b) = true → decide (b ≤ c) = true → decide (a ≤ c) = true := by
    intro a b c hab hbc
    simp only [decide_eq_true_eq] at *
    omega
  have htotal : ∀ a b : Int, (decide (a ≤ b) || decide (b ≤ a)) = true := by
    intro a b
    rcases Int.le_total a b with h | h <;> simp [h]
  refine ⟨?_, ?_, ?_, ?_⟩
  · intro rows
    rw [revenueByMonth_keys]
    have hs := List.sorted_mergeSort htrans htotal
      ((rows.map fun r => monthStart r.debut).dedup)
    have hnd : (((rows.map fun r => monthStart r.debut).dedup).mergeSort
        fun a b => a ≤ b).Nodup :=
      (List.mergeSort_perm _ _).symm.nodup (List.nodup_dedup _)
    exact (hs.and hnd).imp fun hab =>
      lt_of_le_of_ne (by simpa using hab.1) hab.2
  · intro rows p hp
    simp only [revenueByMonth, List.mem_map] at hp
    obtain ⟨k, hk, rfl⟩ := hp
    refine ⟨rfl, ?_⟩
    rw [(List.mergeSort_perm _ _).mem_iff, List.mem_dedup, List.mem_map] at hk
    obtain ⟨r, hr, hrk⟩ := hk
    exact ⟨r, hr, hrk⟩
  · intro rows r hr
    rw [revenueByMonth_keys, (List.mergeSort_perm _ _).mem_iff, List.mem_dedup,
      List.mem_map]
    exact ⟨r, hr, rfl⟩
  · have m1 : monthStart (19727 : Int) = 19723 := by decide
    have m2 : monthStart (19742 : Int) = 19723 := by decide
    have hd : days_from_civil 2024 1 1 = 19723 := by decide
    have hdd : ([19723, 19723] : List Int).dedup = [19723] := by decide
    have d1 : recJan5.debut = 19727 := rfl
    have d2 : recJan20.debut = 19742 := rfl
    have hsum : sumMontant [recJan5, recJan20] 19723 = 2500 := by
      have a1 : recJan5.montant = 1000 := rfl
      have a2 : recJan20.montant = 1500 := rfl
      simp only [sumMontant, List.filter_cons, List.filter_nil, d1, d2, m1, m2]
      norm_num [a1, a2]
    rw [hd]
    simp only [revenueByMonth, List.map_cons, List.map_nil, d1, d2, m1, m2, hdd,
      List.mergeSort_singleton]
    rw [hsum]

theorem revenueByMonth_spec_witness :
    ((19723 : Int), (2500 : Rat)) ∈ revenueByMonth [recJan5, recJan20]
    ∧ ((2500 : Rat) = sumMontant [recJan5, recJan20] 19723
        ∧ ∃ r ∈ [recJan5, recJan20], monthStart r.debut = 19723) := by
  have hd : days_from_civil 2024 1 1 = 19723 := by decide
  have h4 := revenueByMonth_spec.2.2.2
  rw [hd] at h4
  have hmem : ((19723 : Int), (2500 : Rat)) ∈ revenueByMonth [recJan5, recJan20] := by
    rw [h4]
    exact List.mem_singleton.mpr rfl
  exact ⟨hmem, revenueByMonth_spec.2.1 [recJan5, recJan20] (19723, 2500) hmem⟩

/-- C8: a successful creation (non-blank name) persists the entire new
collection — the file afterwards is the serialization of all rows, old and
new: a full rewrite, a value independent of the file's previous contents —
and clears the `st.cache_data` cache.  The next `load_data` therefore
re-reads and re-parses the just-written file instead of returning any
stale cached frame: it yields one row per member of the new collection
(one more than before), whose date and numeric payload — `Debut`,
`Expiration`, `DureeJours`, `Montant` — is exactly the new collection's,
the appended record last; and every later load returns that same frame
from the refilled cache.  (Text cells reload modulo `read_csv`'s NA and
dtype handling, the C6 territory, so the per-field guarantee here is
stated for the losslessly encoded columns.) -/
theorem append_persists_and_invalidates (s : Store) (df : DataFrame)
    (idv nom tel abo : String) (duree : Int) (montant : Rat) (debut : Int)
    (rem : String) (hnom : ¬pyStrip nom = "") :
    (enregistrer s df idv nom tel abo duree montant debut rem).2.2 = none
    ∧ (enregistrer s df idv nom tel abo duree montant debut rem).2.1.file
        = some (to_csv (df.rows ++ [new_row idv nom tel abo duree montant debut rem]))
    ∧ (enregistrer s df idv nom tel abo duree montant debut rem).2.1.cache = none
    ∧ (load_data (enregistrer s df idv nom tel abo duree montant debut rem).2.1).1.rows
        = load_rows (to_csv (df.rows ++ [new_row idv nom tel abo duree montant debut rem]))
    ∧ (load_data (enregistrer s df idv nom tel abo duree montant debut rem).2.1).1.rows.map
          numDateProj
        = df.rows.map numDateProj
            ++ [(debut, debut + duree, duree, montant)]
    ∧ (load_data (enregistrer s df idv nom tel abo duree montant debut rem).2.1).1.rows.length
        = df.rows.length + 1
    ∧ (load_data
          (load_data (enregistrer s df idv nom tel abo duree montant debut rem).2.1).2).1
        = (load_data (enregistrer s df idv nom tel abo duree montant debut rem).2.1).1 := by
  simp only [enregistrer, if_neg hnom, save_data, load_data]
  refine ⟨trivial, trivial, trivial, trivial, ?_, ?_, trivial⟩
  · rw [load_to_csv_numDate]
    simp [numDateProj, new_row]
  · have := congrArg List.length (load_to_csv_numDate
      (df.rows ++ [new_row idv nom tel abo duree montant debut rem]))
    simpa using this

theorem append_persists_and_invalidates_witness :
    (load_data (enregistrer ⟨none, none⟩ ⟨[], none, none⟩
        "u1" "Karim" "0550" "Mensuel (30j)" 30 1500 19723 "ok").2.1).1.rows.map numDateProj
      = [(19723, 19753, 30, 1500)] := by
  have h := (append_persists_and_invalidates ⟨none, none⟩ ⟨[], none, none⟩
    "u1" "Karim" "0550" "Mensuel (30j)" 30 1500 19723 "ok" (by decide)).2.2.2.2.1
  simpa using h

/-- C9, counterexample to atomicity: `save_data` writes through
`df.to_csv(path, ...)`, which opens the backing file itself for writing —
truncating it — before streaming the new data.  A write that fails
immediately (disk full at 0 rows written) therefore leaves an empty file,
not the previously committed contents: prior stored state is corrupted. -/
theorem save_overwrite_counterexample :
    to_csv_write [] (.failAfter 0) (some (to_csv [sampleRec]))
      ≠ some (to_csv [sampleRec]) := by decide

/-- C9 as amended: the rewrite is an in-place overwrite, not
write-to-temp-then-replace.  On success the file holds the full new
serialization; a write failing after `n` rows leaves the file holding only
the first `n` rows of the *new* data, regardless of what was committed
before — whereas the spec's atomic write-to-temp-then-replace scheme
(`save_atomic_write`, modelled from the spec) would leave the prior
contents untouched on failure. -/
theorem save_overwrite_spec (rows : List SubscriptionRecord) (n : Nat)
    (file : Option Csv) :
    to_csv_write rows .ok file = some (to_csv rows)
    ∧ to_csv_write rows (.failAfter n) file = some ((to_csv rows).take n)
    ∧ save_atomic_write rows (.failAfter n) file = file :=
  ⟨rfl, rfl, rfl⟩

/-- C10: `df_with_status` works on `df.copy()`: it allocates a fresh frame
and adds the `Statut`/`JoursRestants` columns only there.  Every frame that
existed before the call — in particular the caller's input frame `i` — is
left byte-for-byte unchanged (no columns added, no field modified), the
result lives at a fresh index, and even the result's record columns equal
the input's. -/
theorem df_with_status_frame (h : List DataFrame) (i : Nat) (w t : Int)
    (hi : i < h.length) :
    (df_with_status_heap h i w t).1.getD i default = h.getD i default
    ∧ (∀ j, j < h.length →
        (df_with_status_heap h i w t).1.getD j default = h.getD j default)
    ∧ (df_with_status_heap h i w t).2 = h.length
    ∧ ((df_with_status_heap h i w t).1.getD (df_with_status_heap h i w t).2 default).rows
        = (h.getD i default).rows := by
  refine ⟨List.getD_append _ _ _ _ hi, fun j hj => List.getD_append _ _ _ _ hj,
    rfl, ?_⟩
  show ((h ++ [df_with_status (h.getD i default) w t]).getD h.length default).rows = _
  rw [List.getD_append_right _ _ _ _ le_rfl]
  simp only [Nat.sub_self, List.getD_cons_zero]
  exact df_with_status_rows _ _ _

theorem df_with_status_frame_witness :
    (df_with_status_heap [⟨[sampleRec], none, none⟩] 0 7 19753).1.getD 0 default
      = ⟨[sampleRec], none, none⟩ :=
  ((df_with_status_frame [⟨[sampleRec], none, none⟩] 0 7 19753
    (by decide)).1).trans rfl

end Gym
